import Mathlib

/-!
Verification of the jovian-archive-nodejs chart service.

Shallow embedding of the fallback orchestrator (ChartController.submitBirthData),
the acquisition strategies (MaiaMechanicsApiService, JovianArchivePuppeteerService,
JovianArchiveService, JovianArchiveFetchService) and the field normalizer and
response extractors, translated from the JavaScript source.  Network, browser and
DOM interactions are abstracted as oracle inputs (resolved-or-thrown outcomes and
pre-extracted page fields); every pure computation (string normalization, lookup
tables, branch structure, response construction) is embedded directly.
-/

/-! ### JavaScript string primitives, modelled on the character list -/

/-- Whitespace characters removed by the JavaScript String.prototype.trim
(restricted to the ASCII whitespace actually occurring in inputs). -/
def isJsSpace (c : Char) : Bool :=
  c = ' ' || c = '\t' || c = '\n' || c = '\r'

/-- JavaScript s.trim(): drop leading and trailing whitespace. -/
def jsTrim (s : String) : String :=
  String.mk (((s.data.dropWhile isJsSpace).reverse.dropWhile isJsSpace).reverse)

/-- JavaScript s.toLowerCase(), per character (ASCII range as used by the tables). -/
def jsToLower (s : String) : String :=
  String.mk (s.data.map Char.toLower)

/-- JavaScript str.charAt(0).toUpperCase() + str.slice(1).toLowerCase(),
the fallback capitalization in JovianArchivePuppeteerService. -/
def capitalizeFirstLower (s : String) : String :=
  match s.data with
  | [] => ""
  | c :: rest => String.mk (c.toUpper :: rest.map Char.toLower)

/-- JavaScript a.startsWith(b). -/
def jsStartsWith (s pre : String) : Bool :=
  pre.data.isPrefixOf s.data

/-- Substring scan over character lists (JavaScript s.includes(pat) helper). -/
def containsSub (pat : List Char) : List Char → Bool
  | [] => pat.isEmpty
  | c :: t => pat.isPrefixOf (c :: t) || containsSub pat t

/-- JavaScript s.includes(pat). -/
def strIncludes (s pat : String) : Bool :=
  containsSub pat.data s.data

/-! ### Promise outcomes -/

/-- Outcome of an awaited JavaScript expression: a resolved value or a thrown
error (a rejected promise carries its error message). -/
inductive JsResult (α : Type) where
  | ret (a : α)
  | thrown (e : String)
deriving DecidableEq

/-! ### Data model -/

/-- Birth data as accepted by the controller (req.body shape). -/
structure BirthData where
  name : String
  day : Nat
  month : Nat
  year : Nat
  hour : Nat
  minute : Nat
  country : String
  city : String
  timezone_utc : Bool
deriving DecidableEq

/-- Canonical chart result produced by every scraping strategy
(chart_properties, design_data, personality_data, chart_image_url, download_data). -/
structure ChartData where
  chart_properties : List (String × String)
  design_data : List String
  personality_data : List String
  chart_image_url : Option String
  download_data : Option String
deriving DecidableEq

/-- The empty chart result. -/
def emptyChartData : ChartData := ⟨[], [], [], none, none⟩

/-- The controller usability check: Object.keys(chartProperties).length > 0 ||
designData.length > 0 || personalityData.length > 0. -/
def hasChartData (d : ChartData) : Bool :=
  !d.chart_properties.isEmpty || !d.design_data.isEmpty || !d.personality_data.isEmpty

/-- Resolved value of a strategy submit call: success with data or error field set. -/
structure SubmitResult where
  success : Bool
  data : Option ChartData
  error : Option String
deriving DecidableEq

/-- A submit result of the documented shape: success with data, or failure with error. -/
def wellShaped (r : SubmitResult) : Prop :=
  (r.success = true ∧ r.data.isSome ∧ r.error = none) ∨
  (r.success = false ∧ r.data = none ∧ r.error.isSome)

/-! ### Field normalizer (country, city, timezone lookup tables)

The country mapping table is written out verbatim in JovianArchiveFetchService,
JovianArchivePuppeteerService and JovianArchiveService; the three copies are
identical, so it is defined once here. -/

/-- The countryMappings object literal (insertion order preserved, as
Object.entries iterates string keys in insertion order). -/
def countryMappings : List (String × String) :=
  [("pakistan", "Pakistan"), ("pak", "Pakistan"),
   ("usa", "United States"), ("united states", "United States"),
   ("uk", "United Kingdom"), ("united kingdom", "United Kingdom"),
   ("canada", "Canada"), ("australia", "Australia"), ("india", "India"),
   ("china", "China"), ("japan", "Japan"), ("germany", "Germany"),
   ("france", "France"), ("italy", "Italy"), ("spain", "Spain"),
   ("brazil", "Brazil"), ("mexico", "Mexico"), ("russia", "Russia"),
   ("south africa", "South Africa"), ("egypt", "Egypt"), ("turkey", "Turkey"),
   ("iran", "Iran"), ("iraq", "Iraq"), ("afghanistan", "Afghanistan"),
   ("bangladesh", "Bangladesh"), ("sri lanka", "Sri Lanka"), ("nepal", "Nepal"),
   ("bhutan", "Bhutan"), ("maldives", "Maldives")]

/-- Shared body of getCountrySuggestion: exact lookup on the lower-cased,
trimmed input, then the first entry whose key starts with the input or of
which the input is an extension (key.startsWith(input) || input.startsWith(key)). -/
def countrySuggestionCore (input : String) : Option String :=
  match countryMappings.lookup input with
  | some v => some v
  | none =>
    (countryMappings.find? (fun kv => jsStartsWith kv.1 input || jsStartsWith input kv.1)).map
      (fun kv => kv.2)

/-- The country input has no exact and no prefix match in the table
(the hypothesis of the passthrough branch). -/
def noCountryMatch (countryInput : String) : Prop :=
  countrySuggestionCore (jsTrim (jsToLower countryInput)) = none

instance (s : String) : Decidable (noCountryMatch s) :=
  inferInstanceAs (Decidable (countrySuggestionCore (jsTrim (jsToLower s)) = none))

/-- The timezoneMappings object of JovianArchiveFetchService and
JovianArchivePuppeteerService (identical copies). -/
def timezoneMappings : List (String × String) :=
  [("Pakistan", "Asia/Karachi"), ("Peshawar", "Asia/Karachi"),
   ("Karachi", "Asia/Karachi"), ("Lahore", "Asia/Karachi"),
   ("Islamabad", "Asia/Karachi"), ("United States", "America/New_York"),
   ("United Kingdom", "Europe/London"), ("India", "Asia/Kolkata")]

namespace JovianArchiveFetchService

/-- JovianArchiveFetchService.getCountrySuggestion: table match, else the
original input unchanged. -/
def getCountrySuggestion (countryInput : String) : String :=
  match countrySuggestionCore (jsTrim (jsToLower countryInput)) with
  | some v => v
  | none => countryInput

/-- JovianArchiveFetchService.getTimezoneForCity: first timezone entry whose
key occurs case-insensitively inside the city string, default UTC. -/
def getTimezoneForCity (city : String) : String :=
  match timezoneMappings.find? (fun kv => strIncludes (jsToLower city) (jsToLower kv.1)) with
  | some kv => kv.2
  | none => "UTC"

end JovianArchiveFetchService

namespace JovianArchivePuppeteerService

/-- JovianArchivePuppeteerService.getCountrySuggestion: table match, else the
original input with the first character upper-cased and the rest lower-cased. -/
def getCountrySuggestion (countryInput : String) : String :=
  match countrySuggestionCore (jsTrim (jsToLower countryInput)) with
  | some v => v
  | none => capitalizeFirstLower countryInput

end JovianArchivePuppeteerService

/-! ### Response extractors

A raw strategy response, as seen by an extractor.  The raw text is kept as a
string (the failure-phrase checks operate directly on it); the results of the
DOM or regex extraction helpers, which run against an external HTML engine
(cheerio respectively the regex library), are abstracted as pre-computed
fields of the payload. -/

/-- Raw payload handed to parseChartResponse, with the per-helper extraction
results abstracted as fields. -/
structure HtmlPayload where
  html : String
  hasChartResultsContainer : Bool
  extractedProperties : List (String × String)
  extractedDesign : List String
  extractedPersonality : List String
  extractedImageUrl : Option String
  extractedDownload : Option String
deriving DecidableEq

namespace JovianArchiveFetchService

/-- JovianArchiveFetchService.parseChartResponse: throws on a recognized error
page (html.includes of either failure phrase), otherwise assembles the chart
result from the extraction helpers. -/
def parseChartResponse (p : HtmlPayload) : JsResult ChartData :=
  if strIncludes p.html "Oops, we have a problem" || strIncludes p.html "Something went wrong" then
    .thrown "Chart generation failed: Server error page returned"
  else
    .ret ⟨p.extractedProperties, p.extractedDesign, p.extractedPersonality,
          p.extractedImageUrl, p.extractedDownload⟩

end JovianArchiveFetchService

namespace JovianArchiveService

/-- JovianArchiveService.parseChartResponse (the axios service): no failure
phrase check at all; when the chart results container is missing it returns the
empty chart result, otherwise it assembles the result from the cheerio
extraction helpers.  It never throws. -/
def parseChartResponse (p : HtmlPayload) : JsResult ChartData :=
  if p.hasChartResultsContainer = false then
    .ret emptyChartData
  else
    .ret ⟨p.extractedProperties, p.extractedDesign, p.extractedPersonality,
          p.extractedImageUrl, p.extractedDownload⟩

end JovianArchiveService

/-! ### Strategy submit wrappers (exception discipline)

Each submit method wraps its body in try/catch; the body (network fetches,
token extraction, form submission, parsing) is abstracted as one resolved or
thrown outcome.  The Puppeteer variant additionally runs closeBrowser in a
finally block: per JavaScript semantics, an exception thrown by the finally
block replaces the value produced by try/catch. -/

namespace JovianArchiveFetchService

/-- JovianArchiveFetchService.submitBirthData: try/catch only, no finally.
A resolved body yields success with data, a thrown body is caught and
yields success false with the error message. -/
def submitBirthData (body : JsResult ChartData) : JsResult SubmitResult :=
  match body with
  | .ret d => .ret ⟨true, some d, none⟩
  | .thrown e => .ret ⟨false, none, some e⟩

end JovianArchiveFetchService

namespace JovianArchivePuppeteerService

/-- JovianArchivePuppeteerService.closeBrowser: awaits browser.close() only when
a browser is open (the close operation itself may reject). -/
def closeBrowser (browserOpen : Bool) (closeOp : JsResult Unit) : JsResult Unit :=
  if browserOpen then closeOp else .ret ()

/-- JovianArchivePuppeteerService.submitBirthData: try/catch with
closeBrowser in a finally block.  If the finally step throws, its exception
replaces the try/catch result and the promise rejects. -/
def submitBirthData (body : JsResult ChartData) (browserOpen : Bool)
    (closeOp : JsResult Unit) : JsResult SubmitResult :=
  let handled : SubmitResult :=
    match body with
    | .ret d => ⟨true, some d, none⟩
    | .thrown e => ⟨false, none, some e⟩
  match closeBrowser browserOpen closeOp with
  | .ret _ => .ret handled
  | .thrown e => .thrown e

end JovianArchivePuppeteerService

/-! ### Maia Mechanics direct API strategy -/

/-- Response payload of the Maia calculation API, abstracted to the two fields
the controller inspects (presence of chart and meta). -/
structure MaiaApiData where
  hasChart : Bool
  hasMeta : Bool
deriving DecidableEq

namespace MaiaMechanicsApiService

/-- Resolved value of MaiaMechanicsApiService.submitBirthData. -/
structure MaiaResult where
  success : Bool
  data : Option MaiaApiData
  error : Option String
deriving DecidableEq

/-- MaiaMechanicsApiService.submitBirthData.  The calculator token is the
configured credential (empty string when MAIA_CALCULATOR_TOKEN is unset, the
only falsy string); the axios POST is abstracted as the oracle outcome net.
Returns the resolved record together with a flag recording whether the network
request was issued. -/
def submitBirthData (calculatorToken : String) (_ : BirthData)
    (net : JsResult MaiaApiData) : MaiaResult × Bool :=
  if calculatorToken = "" then
    (⟨false, none, some "MAIA_CALCULATOR_TOKEN is not set"⟩, false)
  else
    match net with
    | .ret d => (⟨true, some d, none⟩, true)
    | .thrown e => (⟨false, none, some e⟩, true)

end MaiaMechanicsApiService

/-! ### Fallback orchestrator (ChartController.submitBirthData, POST handler) -/

namespace ChartController

/-- The four configured strategies, in the fixed priority order of the handler. -/
inductive Strategy where
  | maia
  | puppeteer
  | axios
  | fetchSvc
deriving DecidableEq

/-- Resolved outcome of the Maia strategy as inspected by the controller:
maia.success with maia.data (possibly null), or a failure record. -/
inductive MaiaOutcome where
  | success (data : Option MaiaApiData)
  | failure (error : String)
deriving DecidableEq

/-- Resolved outcome of a scraping strategy (Puppeteer, axios, fetch):
success with chart data, or failure with an error message. -/
inductive Outcome where
  | success (data : ChartData)
  | failure (error : String)
deriving DecidableEq

/-- One outcome per configured strategy (the oracle for one request). -/
structure Oracle where
  maia : MaiaOutcome
  puppeteer : Outcome
  axios : Outcome
  fetchSvc : Outcome
deriving DecidableEq

/-- The controller guard maia.success && maia.data && (maia.data.chart || maia.data.meta). -/
def maiaUsable : MaiaOutcome → Bool
  | .success (some d) => d.hasChart || d.hasMeta
  | .success none => false
  | .failure _ => false

/-- The HTTP response written by the POST handler. -/
inductive HttpResponse where
  | maiaSuccess (bd : BirthData)
  | chartSuccess (message : String) (bd : BirthData) (data : ChartData)
  | extractFailed
  | allFailed (error : String) (fallbackError : Option String) (fetchError : String)
deriving DecidableEq

/-- Failure reasons recorded in a response: the aggregated 500 carries the
error, fallbackError (absent when the axios call resolved successfully) and
fetchError fields; no other response records strategy failure reasons. -/
def recordedReasons : HttpResponse → List String
  | .allFailed e1 oe2 e3 => [e1] ++ (match oe2 with | some e => [e] | none => []) ++ [e3]
  | _ => []

/-- The fetch-service block of the POST handler (second fallback): a usable
fetch success responds 200; a fetch failure responds with the aggregated 500;
a fetch success with empty data falls off the end of the handler and no
response is sent (modelled as none). -/
def fetchBlock (bd : BirthData) (pupError : String) (axiosError : Option String)
    (fo : Outcome) : Option HttpResponse × List Strategy :=
  match fo with
  | .success d =>
    if hasChartData d then
      (some (.chartSuccess "Chart generated successfully using fetch service" bd d),
       [.maia, .puppeteer, .axios, .fetchSvc])
    else
      (none, [.maia, .puppeteer, .axios, .fetchSvc])
  | .failure e3 =>
    (some (.allFailed pupError axiosError e3), [.maia, .puppeteer, .axios, .fetchSvc])

/-- ChartController.submitBirthData (POST): Maia first (a non-usable or failed
Maia outcome falls through); then Puppeteer, whose usable success responds 200
and whose empty success responds 500 immediately; then the axios fallback,
whose usable success responds 200 and whose empty success or failure continues
into the fetch block.  Returns the response (none when the handler sends
nothing) and the list of strategies invoked. -/
def submitBirthData (bd : BirthData) (o : Oracle) : Option HttpResponse × List Strategy :=
  if maiaUsable o.maia then
    (some (.maiaSuccess bd), [.maia])
  else
    match o.puppeteer with
    | .success d =>
      if hasChartData d then
        (some (.chartSuccess "Chart generated successfully" bd d), [.maia, .puppeteer])
      else
        (some .extractFailed, [.maia, .puppeteer])
    | .failure e1 =>
      match o.axios with
      | .success d2 =>
        if hasChartData d2 then
          (some (.chartSuccess "Chart generated successfully using axios fallback" bd d2),
           [.maia, .puppeteer, .axios])
        else
          fetchBlock bd e1 none o.fetchSvc
      | .failure e2 => fetchBlock bd e1 (some e2) o.fetchSvc

/-! ### Readable-format numeric mappings (transformToReadableFormat) -/

/-- The typeMap object literal of transformToReadableFormat. -/
def typeMap : List (Nat × String) :=
  [(0, "Generator"), (1, "Manifestor"), (2, "Projector"),
   (3, "Reflector"), (4, "Manifesting Generator")]

/-- Input of formatProfile: a JavaScript number or any other value (passed
through unchanged). -/
inductive ProfileValue where
  | num (n : Nat)
  | other (s : String)
deriving DecidableEq

/-- formatProfile: a numeric code P renders as floor(P/10), a slash, P mod 10
(template literal with decimal rendering); non-numbers pass through. -/
def formatProfile : ProfileValue → String
  | .num p => toString (p / 10) ++ "/" ++ toString (p % 10)
  | .other s => s

end ChartController

/-! ### Concrete fixtures used by the counterexamples and witnesses -/

/-- The birth data of the end-to-end scenario in the specification. -/
def bdJohn : BirthData :=
  ⟨"John Doe", 15, 6, 1990, 14, 30, "Pakistan", "Peshawar", false⟩

/-- A usable chart result (non-empty properties). -/
def usableChart : ChartData :=
  ⟨[("type", "Generator"), ("profile", "1/3")], [], [], none, none⟩

/-- Oracle where Maia fails and Puppeteer resolves successfully with empty data. -/
def oracleC1 : ChartController.Oracle :=
  ⟨.failure "maia down", .success emptyChartData,
   .failure "axios never invoked", .failure "fetch never invoked"⟩

/-- Oracle where Maia fails, Puppeteer returns an empty success, and the axios
strategy would have returned a usable result. -/
def oracleC2 : ChartController.Oracle :=
  ⟨.failure "maia down", .success emptyChartData, .success usableChart, .failure "fetch error"⟩

/-- Oracle where Maia is non-usable, Puppeteer fails and axios succeeds with
usable data. -/
def oracleC2w : ChartController.Oracle :=
  ⟨.failure "maia unavailable", .failure "puppeteer crashed",
   .success usableChart, .failure "unused"⟩

/-- Oracle where Maia returns a successful but empty response and Puppeteer
resolves successfully with empty data. -/
def oracleC1w : ChartController.Oracle :=
  ⟨.success none, .success emptyChartData, .failure "axios error", .failure "fetch error"⟩

/-- Oracle where all four strategies fail, each with a distinct reason. -/
def oracleAllFail : ChartController.Oracle :=
  ⟨.failure "maiaErr", .failure "pupErr", .failure "axiosErr", .failure "fetchErr"⟩

/-- Oracle where the first three strategies fail and the fetch strategy
resolves successfully with empty data. -/
def oracleHang : ChartController.Oracle :=
  ⟨.failure "maia down", .failure "puppeteer failed", .failure "axios failed",
   .success emptyChartData⟩

/-- A server error page payload (failure phrase present, no results container). -/
def errorPage : HtmlPayload :=
  ⟨"<h1>Oops, we have a problem</h1>", false, [], [], [], none, none⟩

/-- A second error page payload, with the other failure phrase. -/
def wrongPage : HtmlPayload :=
  ⟨"Something went wrong", false, [], [], [], none, none⟩

/-! ## Theorems settling the claims -/

/-- C1, counterexample: with Maia failed and Puppeteer resolving successfully
with empty chart data, the handler responds 500 immediately and never invokes
the axios or fetch strategies, so an empty outcome does terminate the fallback
chain early. -/
theorem c1_counterexample :
    hasChartData emptyChartData = false ∧
    (ChartController.submitBirthData bdJohn oracleC1).1 = some .extractFailed ∧
    (ChartController.submitBirthData bdJohn oracleC1).2 =
      [.maia, .puppeteer] ∧
    ChartController.Strategy.axios ∉ (ChartController.submitBirthData bdJohn oracleC1).2 := by
  decide

/-- C1 (amended): an empty-but-non-null result is never returned as the
success response; an empty Puppeteer success terminates the chain with an
immediate failure response without invoking the remaining strategies; an empty
axios success does continue into the fetch strategy; and an empty fetch
success leaves the request without any response. -/
theorem c1_amended_empty_result_handling :
    (∀ bd o m bd2 d,
      (ChartController.submitBirthData bd o).1 = some (.chartSuccess m bd2 d) →
      hasChartData d = true) ∧
    (∀ bd o d, ChartController.maiaUsable o.maia = false →
      o.puppeteer = .success d → hasChartData d = false →
      ChartController.submitBirthData bd o = (some .extractFailed, [.maia, .puppeteer])) ∧
    (∀ bd o e1 d, ChartController.maiaUsable o.maia = false →
      o.puppeteer = .failure e1 → o.axios = .success d → hasChartData d = false →
      ChartController.Strategy.fetchSvc ∈ (ChartController.submitBirthData bd o).2) ∧
    (∀ bd o e1 d df, ChartController.maiaUsable o.maia = false →
      o.puppeteer = .failure e1 → o.axios = .success d → hasChartData d = false →
      o.fetchSvc = .success df → hasChartData df = false →
      (ChartController.submitBirthData bd o).1 = none) := by
  refine ⟨?_, ?_, ?_, ?_⟩
  · intro bd o m bd2 d h
    obtain ⟨om, op, oa, og⟩ := o
    by_cases hm : ChartController.maiaUsable om = true
    · simp [ChartController.submitBirthData, hm] at h
    · cases op with
      | success dp =>
        by_cases hdp : hasChartData dp = true
        · simp [ChartController.submitBirthData, hm, hdp] at h
          obtain ⟨_, _, rfl⟩ := h
          exact hdp
        · simp [ChartController.submitBirthData, hm, hdp] at h
      | failure e1 =>
        cases oa with
        | success da =>
          by_cases hda : hasChartData da = true
          · simp [ChartController.submitBirthData, hm, hda] at h
            obtain ⟨_, _, rfl⟩ := h
            exact hda
          · cases og with
            | success dg =>
              by_cases hdg : hasChartData dg = true
              · simp [ChartController.submitBirthData, ChartController.fetchBlock,
                      hm, hda, hdg] at h
                obtain ⟨_, _, rfl⟩ := h
                exact hdg
              · simp [ChartController.submitBirthData, ChartController.fetchBlock,
                      hm, hda, hdg] at h
            | failure e3 =>
              simp [ChartController.submitBirthData, ChartController.fetchBlock,
                    hm, hda] at h
        | failure e2 =>
          cases og with
          | success dg =>
            by_cases hdg : hasChartData dg = true
            · simp [ChartController.submitBirthData, ChartController.fetchBlock,
                    hm, hdg] at h
              obtain ⟨_, _, rfl⟩ := h
              exact hdg
            · simp [ChartController.submitBirthData, ChartController.fetchBlock,
                    hm, hdg] at h
          | failure e3 =>
            simp [ChartController.submitBirthData, ChartController.fetchBlock, hm] at h
  · intro bd o d hm hp hd
    obtain ⟨om, op, oa, og⟩ := o
    simp only at hm hp
    subst hp
    simp [ChartController.submitBirthData, hm, hd]
  · intro bd o e1 d hm hp ha hd
    obtain ⟨om, op, oa, og⟩ := o
    simp only at hm hp ha
    subst hp; subst ha
    cases og with
    | success dg =>
      by_cases hdg : hasChartData dg = true <;>
        simp [ChartController.submitBirthData, ChartController.fetchBlock, hm, hd, hdg]
    | failure e3 =>
      simp [ChartController.submitBirthData, ChartController.fetchBlock, hm, hd]
  · intro bd o e1 d df hm hp ha hd hf hdf
    obtain ⟨om, op, oa, og⟩ := o
    simp only at hm hp ha hf
    subst hp; subst ha; subst hf
    simp [ChartController.submitBirthData, ChartController.fetchBlock, hm, hd, hdf]

/-- C1, witness: a concrete empty Puppeteer success after a non-usable Maia
outcome produces the immediate 500 with only Maia and Puppeteer invoked. -/
theorem c1_witness :
    ChartController.maiaUsable oracleC1w.maia = false ∧
    oracleC1w.puppeteer = .success emptyChartData ∧
    hasChartData emptyChartData = false ∧
    ChartController.submitBirthData bdJohn oracleC1w =
      (some .extractFailed, [.maia, .puppeteer]) :=
  ⟨rfl, rfl, rfl,
   c1_amended_empty_result_handling.2.1 bdJohn oracleC1w emptyChartData rfl rfl rfl⟩

/-- C2, counterexample: the outcome sequence assigns the axios strategy a
usable result, yet the handler, having received an empty Puppeteer success,
responds 500 without ever invoking axios, so the usable result is not
returned. -/
theorem c2_counterexample :
    hasChartData usableChart = true ∧
    oracleC2.axios = .success usableChart ∧
    (ChartController.submitBirthData bdJohn oracleC2).1 = some .extractFailed ∧
    ChartController.Strategy.axios ∉ (ChartController.submitBirthData bdJohn oracleC2).2 := by
  decide

/-- C2 (amended): whenever every scraping strategy before the first usable
outcome returns a Failure (and Maia is non-usable when it is not the first
usable one), the handler returns the first usable result with a 200 and does
not invoke any strategy after the successful one. -/
theorem c2_amended_short_circuit :
    (∀ bd o, ChartController.maiaUsable o.maia = true →
      ChartController.submitBirthData bd o = (some (.maiaSuccess bd), [.maia])) ∧
    (∀ bd o d, ChartController.maiaUsable o.maia = false →
      o.puppeteer = .success d → hasChartData d = true →
      ChartController.submitBirthData bd o =
        (some (.chartSuccess "Chart generated successfully" bd d), [.maia, .puppeteer])) ∧
    (∀ bd o e1 d, ChartController.maiaUsable o.maia = false →
      o.puppeteer = .failure e1 → o.axios = .success d → hasChartData d = true →
      ChartController.submitBirthData bd o =
        (some (.chartSuccess "Chart generated successfully using axios fallback" bd d),
         [.maia, .puppeteer, .axios])) ∧
    (∀ bd o e1 e2 d, ChartController.maiaUsable o.maia = false →
      o.puppeteer = .failure e1 → o.axios = .failure e2 →
      o.fetchSvc = .success d → hasChartData d = true →
      ChartController.submitBirthData bd o =
        (some (.chartSuccess "Chart generated successfully using fetch service" bd d),
         [.maia, .puppeteer, .axios, .fetchSvc])) := by
  refine ⟨?_, ?_, ?_, ?_⟩
  · intro bd o hm
    simp [ChartController.submitBirthData, hm]
  · intro bd o d hm hp hd
    obtain ⟨om, op, oa, og⟩ := o
    simp only at hm hp
    subst hp
    simp [ChartController.submitBirthData, hm, hd]
  · intro bd o e1 d hm hp ha hd
    obtain ⟨om, op, oa, og⟩ := o
    simp only at hm hp ha
    subst hp; subst ha
    simp [ChartController.submitBirthData, hm, hd]
  · intro bd o e1 e2 d hm hp ha hf hd
    obtain ⟨om, op, oa, og⟩ := o
    simp only at hm hp ha hf
    subst hp; subst ha; subst hf
    simp [ChartController.submitBirthData, ChartController.fetchBlock, hm, hd]

/-- C2, witness: with Maia and Puppeteer failing and axios returning a usable
chart, the handler answers with the axios result and never invokes fetch. -/
theorem c2_witness :
    ChartController.maiaUsable oracleC2w.maia = false ∧
    oracleC2w.puppeteer = .failure "puppeteer crashed" ∧
    oracleC2w.axios = .success usableChart ∧
    hasChartData usableChart = true ∧
    ChartController.submitBirthData bdJohn oracleC2w =
      (some (.chartSuccess "Chart generated successfully using axios fallback" bdJohn usableChart),
       [.maia, .puppeteer, .axios]) :=
  ⟨rfl, rfl, rfl, rfl,
   c2_amended_short_circuit.2.2.1 bdJohn oracleC2w "puppeteer crashed" usableChart
     rfl rfl rfl rfl⟩

/-- C3, counterexample: with four strategies configured and all four failing
with distinct reasons, the aggregated failure response records only three
reasons (Puppeteer, axios, fetch); the Maia reason is absent. -/
theorem c3_counterexample :
    (ChartController.submitBirthData bdJohn oracleAllFail).1 =
      some (.allFailed "pupErr" (some "axiosErr") "fetchErr") ∧
    ChartController.recordedReasons (.allFailed "pupErr" (some "axiosErr") "fetchErr") =
      ["pupErr", "axiosErr", "fetchErr"] ∧
    (ChartController.recordedReasons
      (.allFailed "pupErr" (some "axiosErr") "fetchErr")).length = 3 ∧
    "maiaErr" ∉ ChartController.recordedReasons
      (.allFailed "pupErr" (some "axiosErr") "fetchErr") := by
  decide

/-- C3 (amended): when every configured strategy returns a Failure, the caller
receives one aggregated failure object recording exactly the Puppeteer, axios
and fetch reasons, in that order; the Maia reason is not part of it. -/
theorem c3_amended_three_reasons (bd : BirthData) (e0 e1 e2 e3 : String) :
    ChartController.submitBirthData bd
      ⟨.failure e0, .failure e1, .failure e2, .failure e3⟩ =
      (some (.allFailed e1 (some e2) e3), [.maia, .puppeteer, .axios, .fetchSvc]) ∧
    ChartController.recordedReasons (.allFailed e1 (some e2) e3) = [e1, e2, e3] :=
  ⟨rfl, rfl⟩

/-- C4: evaluating the handler at the failing input (Maia, Puppeteer and axios
fail, fetch resolves successfully with empty chart data) shows that no HTTP
response is sent at all: the handler falls off the end of the fallback chain. -/
theorem c4_no_response_on_empty_fetch_success :
    hasChartData emptyChartData = false ∧
    (ChartController.submitBirthData bdJohn oracleHang).1 = none := by
  decide

/-- C5, counterexample: when the browser is open and the browser-close cleanup
step rejects, the Puppeteer submit rejects with that error instead of
resolving to a success or failure record. -/
theorem c5_counterexample :
    JovianArchivePuppeteerService.submitBirthData (.ret usableChart) true
      (.thrown "Protocol error: Connection closed") =
      .thrown "Protocol error: Connection closed" := by
  decide

/-- C5 (amended): the fetch-service submit always resolves to a record of the
documented shape; the Puppeteer submit resolves to such a record whenever the
closeBrowser cleanup step resolves, but rejects with the cleanup error
whenever closeBrowser rejects. -/
theorem c5_amended_submit_shape :
    (∀ body, ∃ r, JovianArchiveFetchService.submitBirthData body = .ret r ∧ wellShaped r) ∧
    (∀ body browserOpen closeOp,
      JovianArchivePuppeteerService.closeBrowser browserOpen closeOp = .ret () →
      ∃ r, JovianArchivePuppeteerService.submitBirthData body browserOpen closeOp =
        .ret r ∧ wellShaped r) ∧
    (∀ body browserOpen closeOp e,
      JovianArchivePuppeteerService.closeBrowser browserOpen closeOp = .thrown e →
      JovianArchivePuppeteerService.submitBirthData body browserOpen closeOp = .thrown e) := by
  refine ⟨?_, ?_, ?_⟩
  · intro body
    cases body with
    | ret d => exact ⟨⟨true, some d, none⟩, rfl, Or.inl ⟨rfl, rfl, rfl⟩⟩
    | thrown e => exact ⟨⟨false, none, some e⟩, rfl, Or.inr ⟨rfl, rfl, rfl⟩⟩
  · intro body browserOpen closeOp h
    unfold JovianArchivePuppeteerService.submitBirthData
    rw [h]
    cases body with
    | ret d => exact ⟨⟨true, some d, none⟩, rfl, Or.inl ⟨rfl, rfl, rfl⟩⟩
    | thrown e => exact ⟨⟨false, none, some e⟩, rfl, Or.inr ⟨rfl, rfl, rfl⟩⟩
  · intro body browserOpen closeOp e h
    unfold JovianArchivePuppeteerService.submitBirthData
    rw [h]

/-- C5, witness: with no browser open the cleanup step resolves, and a thrown
body is converted into a well-shaped failure record. -/
theorem c5_witness :
    JovianArchivePuppeteerService.closeBrowser false (.ret ()) = .ret () ∧
    ∃ r, JovianArchivePuppeteerService.submitBirthData (.thrown "timeout") false (.ret ()) =
      .ret r ∧ wellShaped r :=
  ⟨rfl, c5_amended_submit_shape.2.1 (.thrown "timeout") false (.ret ()) rfl⟩

/-- C6: with the calculator token absent (empty string, the value used when
MAIA_CALCULATOR_TOKEN is unset), the Maia submit returns a failure record
immediately and the network-request flag is false for every birth data and
every network oracle. -/
theorem c6_missing_token_no_network (bd : BirthData) (net : JsResult MaiaApiData) :
    MaiaMechanicsApiService.submitBirthData "" bd net =
      (⟨false, none, some "MAIA_CALCULATOR_TOKEN is not set"⟩, false) := rfl

/-- C7, counterexample: the input ZZZ has no exact and no prefix match in the
country table, yet the Puppeteer-service normalizer does not return it
unchanged: it re-capitalizes it to Zzz. -/
theorem c7_counterexample :
    noCountryMatch "ZZZ" ∧
    JovianArchivePuppeteerService.getCountrySuggestion "ZZZ" ≠ "ZZZ" ∧
    JovianArchivePuppeteerService.getCountrySuggestion "ZZZ" = "Zzz" := by
  refine ⟨by decide, by decide, by decide⟩

/-- C7 (amended): for unmatched country inputs the fetch-service normalizer
returns the input unchanged while the Puppeteer-service normalizer returns it
with the first character upper-cased and the rest lower-cased; and the derived
timezone is UTC exactly when no timezone-table key occurs case-insensitively
inside the city string. -/
theorem c7_amended_passthrough :
    (∀ s, noCountryMatch s → JovianArchiveFetchService.getCountrySuggestion s = s) ∧
    (∀ s, noCountryMatch s →
      JovianArchivePuppeteerService.getCountrySuggestion s = capitalizeFirstLower s) ∧
    (∀ city, JovianArchiveFetchService.getTimezoneForCity city = "UTC" ↔
      ∀ kv ∈ timezoneMappings, strIncludes (jsToLower city) (jsToLower kv.1) = false) := by
  refine ⟨?_, ?_, ?_⟩
  · intro s hs
    unfold JovianArchiveFetchService.getCountrySuggestion
    rw [hs]
  · intro s hs
    unfold JovianArchivePuppeteerService.getCountrySuggestion
    rw [hs]
  · intro city
    cases hfind : timezoneMappings.find?
        (fun kv => strIncludes (jsToLower city) (jsToLower kv.1)) with
    | none =>
      have hall : ∀ kv ∈ timezoneMappings,
          strIncludes (jsToLower city) (jsToLower kv.1) = false := by
        intro kv hkv
        have := List.find?_eq_none.mp hfind kv hkv
        simpa using this
      constructor
      · intro _
        exact hall
      · intro _
        unfold JovianArchiveFetchService.getTimezoneForCity
        rw [hfind]
    | some kv2 =>
      have hmem := List.mem_of_find?_eq_some hfind
      have hpred := List.find?_some hfind
      have hne : ∀ x ∈ timezoneMappings, x.2 ≠ "UTC" := by decide
      constructor
      · intro h
        exfalso
        apply hne kv2 hmem
        rw [← h]
        unfold JovianArchiveFetchService.getTimezoneForCity
        rw [hfind]
      · intro h
        exfalso
        have := h kv2 hmem
        rw [this] at hpred
        exact Bool.false_ne_true hpred

/-- C7, witness: a concrete unmatched input passes through the fetch-service
normalizer unchanged, is re-capitalized by the Puppeteer-service normalizer,
and a city matching no timezone key derives UTC. -/
theorem c7_witness :
    noCountryMatch "ZZW" ∧
    JovianArchiveFetchService.getCountrySuggestion "ZZW" = "ZZW" ∧
    JovianArchivePuppeteerService.getCountrySuggestion "ZZW" = capitalizeFirstLower "ZZW" ∧
    (JovianArchiveFetchService.getTimezoneForCity "Nowhere" = "UTC" ↔
      ∀ kv ∈ timezoneMappings, strIncludes (jsToLower "Nowhere") (jsToLower kv.1) = false) :=
  ⟨by decide, c7_amended_passthrough.1 "ZZW" (by decide),
   c7_amended_passthrough.2.1 "ZZW" (by decide),
   c7_amended_passthrough.2.2 "Nowhere"⟩

/-- C8, counterexample: a payload whose visible text contains the failure
phrase is handed to the axios-service extractor, which returns an empty chart
result instead of raising an extraction error. -/
theorem c8_counterexample :
    strIncludes errorPage.html "Oops, we have a problem" = true ∧
    JovianArchiveService.parseChartResponse errorPage = .ret emptyChartData := by
  refine ⟨by decide, by decide⟩

/-- C8 (amended): the fetch-service extractor raises the distinguished error
on every payload containing a failure phrase; the axios-service extractor
performs no failure-phrase check, never throws, and returns the empty chart
result whenever the results container is missing. -/
theorem c8_amended_error_detection :
    (∀ p : HtmlPayload,
      (strIncludes p.html "Oops, we have a problem" ||
       strIncludes p.html "Something went wrong") = true →
      JovianArchiveFetchService.parseChartResponse p =
        .thrown "Chart generation failed: Server error page returned") ∧
    (∀ p : HtmlPayload, ∃ d, JovianArchiveService.parseChartResponse p = .ret d) ∧
    (∀ p : HtmlPayload, p.hasChartResultsContainer = false →
      JovianArchiveService.parseChartResponse p = .ret emptyChartData) := by
  refine ⟨?_, ?_, ?_⟩
  · intro p hp
    unfold JovianArchiveFetchService.parseChartResponse
    simp [hp]
  · intro p
    unfold JovianArchiveService.parseChartResponse
    by_cases h : p.hasChartResultsContainer = false
    · exact ⟨emptyChartData, by rw [if_pos h]⟩
    · exact ⟨_, by rw [if_neg h]⟩
  · intro p hp
    unfold JovianArchiveService.parseChartResponse
    rw [if_pos hp]

/-- C8, witness: the second failure phrase triggers the fetch-service
extraction error, and the same payload yields the empty result from the
axios-service extractor. -/
theorem c8_witness :
    (strIncludes wrongPage.html "Oops, we have a problem" ||
     strIncludes wrongPage.html "Something went wrong") = true ∧
    JovianArchiveFetchService.parseChartResponse wrongPage =
      .thrown "Chart generation failed: Server error page returned" ∧
    wrongPage.hasChartResultsContainer = false ∧
    JovianArchiveService.parseChartResponse wrongPage = .ret emptyChartData :=
  ⟨by decide, c8_amended_error_detection.1 wrongPage (by decide), by decide,
   c8_amended_error_detection.2.2 wrongPage (by decide)⟩

/-- C9: the readable profile string of a numeric code P is floor(P/10), a
slash, then P mod 10; the concrete code 24 renders as 2/4; and type code 4
maps to Manifesting Generator. -/
theorem c9_profile_and_type_mapping :
    (∀ p a b : Nat, p = 10 * a + b → b < 10 →
      ChartController.formatProfile (.num p) = toString a ++ "/" ++ toString b) ∧
    ChartController.formatProfile (.num 24) = "2/4" ∧
    ChartController.typeMap.lookup 4 = some "Manifesting Generator" := by
  refine ⟨?_, by decide, by decide⟩
  intro p a b hp hb
  subst hp
  have h1 : (10 * a + b) / 10 = a := by omega
  have h2 : (10 * a + b) % 10 = b := by omega
  simp [ChartController.formatProfile, h1, h2]

/-- C9, witness: the general profile formula applied at code 24 = 10 * 2 + 4. -/
theorem c9_witness :
    ChartController.formatProfile (.num 24) = toString (2 : Nat) ++ "/" ++ toString (4 : Nat) :=
  c9_profile_and_type_mapping.1 24 2 4 (by decide) (by decide)

/-- C10: every country input trimming to the empty string matches the first
table entry by prefix, so both normalizer variants return Pakistan, the value
of the first mapping entry; the empty input is not passed through. -/
theorem c10_blank_country_first_entry (s : String) (h : jsTrim (jsToLower s) = "") :
    JovianArchiveFetchService.getCountrySuggestion s = "Pakistan" ∧
    JovianArchivePuppeteerService.getCountrySuggestion s = "Pakistan" ∧
    countryMappings.head? = some ("pakistan", "Pakistan") := by
  have hc : countrySuggestionCore "" = some "Pakistan" := by decide
  refine ⟨?_, ?_, by decide⟩
  · unfold JovianArchiveFetchService.getCountrySuggestion
    rw [h, hc]
  · unfold JovianArchivePuppeteerService.getCountrySuggestion
    rw [h, hc]

/-- C10, witness: the whitespace-only input maps to Pakistan in both variants. -/
theorem c10_witness :
    JovianArchiveFetchService.getCountrySuggestion "   " = "Pakistan" ∧
    JovianArchivePuppeteerService.getCountrySuggestion "   " = "Pakistan" ∧
    countryMappings.head? = some ("pakistan", "Pakistan") :=
  c10_blank_country_first_entry "   " (by decide)
